import Mathlib

/-!
Verification of the scytl election-data reader
(`scytl-cpp/read-scytl-data.cpp`) against its natural-language
specification.

The source walks an already-parsed tinyxml2 tree.  We embed the slice of
the tree that the reader inspects:

* a datum (`s:Data` element) carries an optional `s:Type` attribute and
  optional text content (`GetText()` returns NULL when the element has no
  text child; we model that as `none`);
* a cell (`s:Cell`) carries optional `s:StyleID` and `s:MergeAcross`
  attributes and an optional first `s:Data` child;
* rows carry cell lists, tables carry row lists, worksheets carry an
  optional `s:Name` attribute and an optional first `s:Table` child;
* the workbook carries an optional `o:DocumentProperties` child and the
  ordered sibling chain of `s:Worksheet` elements.

Every reader function in the source returns the single error code `1`;
no error kinds are distinguished at runtime.  We model a reader result as
`Except Err _` where `Err.fail` is the `return 1` path and `Err.ub` marks
the places where the source dereferences a null pointer or constructs a
`std::string` from NULL (undefined behavior, in practice a crash).
-/

namespace Scytl

/-- Outcome of a failing reader step in the source: `fail` is the
`return 1` error code; `ub` marks an execution that hits undefined
behavior (null-pointer dereference / `std::string` from NULL). -/
inductive Err where
  | fail
  | ub
deriving DecidableEq, Repr

instance {ε α : Type} [DecidableEq ε] [DecidableEq α] : DecidableEq (Except ε α) := fun x y =>
  match x, y with
  | .ok a, .ok b =>
      if h : a = b then isTrue (by rw [h]) else isFalse (fun hh => by cases hh; exact h rfl)
  | .ok _, .error _ => isFalse (fun hh => by cases hh)
  | .error _, .ok _ => isFalse (fun hh => by cases hh)
  | .error e, .error f =>
      if h : e = f then isTrue (by rw [h]) else isFalse (fun hh => by cases hh; exact h rfl)

/-- An `s:Data` element: `s:Type` attribute and text content, both
possibly absent (tinyxml2 `Attribute`/`GetText` return NULL). -/
structure SDatum where
  typ : Option String
  text : Option String
deriving DecidableEq, Repr

/-- An `s:Cell` element: `s:StyleID` and `s:MergeAcross` attributes
(raw attribute strings) and the first `s:Data` child. -/
structure SCell where
  styleID : Option String
  mergeAcross : Option String
  datum : Option SDatum
deriving DecidableEq, Repr

/-- An `s:Row` element: its `s:Cell` children in document order. -/
structure SRow where
  cells : List SCell
deriving DecidableEq, Repr

/-- An `s:Table` element: its `s:Row` children in document order. -/
structure STable where
  rows : List SRow
deriving DecidableEq, Repr

/-- An `s:Worksheet` element: `s:Name` attribute and first `s:Table`
child, both possibly absent. -/
structure Worksheet where
  name : Option String
  table : Option STable
deriving DecidableEq, Repr

/-- The `o:DocumentProperties` element.  Each field records whether the
named child (`o:Title`, `o:Author`, `o:Created`) exists and, if so, its
text content (`none` when `GetText()` returns NULL). -/
structure DPElem where
  title : Option (Option String)
  author : Option (Option String)
  created : Option (Option String)
deriving DecidableEq, Repr

/-- The `s:Workbook` root: document-properties child and the ordered
chain of worksheet elements. -/
structure Workbook where
  docProps : Option DPElem
  worksheets : List Worksheet
deriving DecidableEq, Repr

/-- `CDocumentProperties` from the source. -/
structure CDocumentProperties where
  title : String
  author : String
  created : String
deriving DecidableEq, Repr

/-- `CRegionProfile` from the source.  In C++ `RegionName` is a
default-constructed empty string and the numeric members are left
indeterminate until assigned; `none` records a field that the extractor
never assigned. -/
structure CRegionProfile where
  regionName : Option String
  registeredVoters : Option Int
  ballotsCast : Option Int
  voterTurnout : Option ℚ
deriving DecidableEq, Repr

/-- `CLabeledTuple` from the source. -/
structure CLabeledTuple where
  label : String
  data : List Int
deriving DecidableEq, Repr

/-- `CElectionHeader` from the source (both strings default to empty on
`resize`, exactly as in C++). -/
structure CElectionHeader where
  columnName : String
  candidateName : String
deriving DecidableEq, Repr

/-- `CElection` from the source. -/
structure CElection where
  electionName : String
  header : List CElectionHeader
  results : List CLabeledTuple
deriving DecidableEq, Repr

/-- The four member collections the reader accumulates in `Read`. -/
structure CElectionDataset where
  documentProperties : CDocumentProperties
  tableOfContents : List (Int × String)
  regionProfiles : List CRegionProfile
  electionResults : List CElection
deriving DecidableEq, Repr

/-! ### Models of the external parsing routines

The reader relies on two external text-to-number routines: tinyxml2's
`QueryIntText`/`QueryIntAttribute` (both `sscanf("%d")`-style) and
`istringstream >> double`.  Neither is part of this repository; the
models below follow their documented behavior on decimal input:
`sscanf %d` skips leading whitespace, reads an optional sign and a
nonempty digit run, and ignores anything after the digits; stream
extraction of a floating value skips leading whitespace and consumes the
longest prefix matching an optionally-signed decimal with optional
fraction and exponent, failing when no digit is read.  Values are exact
rationals; the source stores an IEEE double, but none of the claims
examined depends on rounding. -/

/-- Whitespace as recognized by `isspace` in the "C" locale. -/
def isSpaceChar (c : Char) : Bool :=
  c = ' ' || c = '\t' || c = '\n' || c = '\r' || c = '\x0b' || c = '\x0c'

/-- Decimal digit value of a character, if it is a digit. -/
def digitVal (c : Char) : Option Nat :=
  if '0' ≤ c && c ≤ '9' then some (c.toNat - 48) else none

/-- Split a leading digit run off a character list. -/
def takeDigits : List Char → (List Nat × List Char)
  | [] => ([], [])
  | c :: cs =>
      match digitVal c with
      | some d =>
          let p := takeDigits cs
          (d :: p.1, p.2)
      | none => ([], c :: cs)

/-- Value of a digit run, most significant first. -/
def digitsToNat (ds : List Nat) : Nat := ds.foldl (fun a d => a * 10 + d) 0

/-- Split an optional leading sign off a character list, returning the
sign as `1` or `-1`. -/
def splitSign : List Char → (Int × List Char)
  | '-' :: cs => (-1, cs)
  | '+' :: cs => (1, cs)
  | cs => (1, cs)

/-- `sscanf("%d")` on a character list: leading whitespace, optional
sign, at least one digit; anything after the digits is ignored. -/
def sscanfIntCore (cs0 : List Char) : Option Int :=
  let cs := cs0.dropWhile isSpaceChar
  let sp := splitSign cs
  let dp := takeDigits sp.2
  if dp.1.isEmpty then none else some (sp.1 * digitsToNat dp.1)

/-- `sscanf("%d")` on a string (model of tinyxml2 `XMLUtil::ToInt`, used
by `QueryIntText` and `QueryIntAttribute`). -/
def sscanfInt (s : String) : Option Int := sscanfIntCore s.data

/-- Optional exponent part of stream float extraction; the value read so
far is `sign * num / den`.  An exponent letter not followed by a digit
makes the whole extraction fail. -/
def istreamExp (sign : Int) (num den : Nat) : List Char → Option (ℚ × List Char)
  | [] => some (mkRat (sign * num) den, [])
  | c :: cs =>
      if c = 'e' || c = 'E' then
        let sp := splitSign cs
        let dp := takeDigits sp.2
        if dp.1.isEmpty then none
        else
          let e := digitsToNat dp.1
          if sp.1 < 0 then some (mkRat (sign * num) (den * 10 ^ e), dp.2)
          else some (mkRat (sign * num * (10 ^ e : Nat)) den, dp.2)
      else some (mkRat (sign * num) den, c :: cs)

/-- `istringstream >> double` on a character list: skip leading
whitespace, optional sign, digits with optional fraction, optional
exponent; returns the value and the unconsumed suffix, or `none` when
extraction fails (no digit read). -/
def istreamRatCore (cs0 : List Char) : Option (ℚ × List Char) :=
  let cs := (cs0.dropWhile isSpaceChar)
  let sp := splitSign cs
  let ip := takeDigits sp.2
  match ip.2 with
  | '.' :: r =>
      let fp := takeDigits r
      if ip.1.isEmpty && fp.1.isEmpty then none
      else
        istreamExp sp.1 (digitsToNat ip.1 * 10 ^ fp.1.length + digitsToNat fp.1)
          (10 ^ fp.1.length) fp.2
  | _ =>
      if ip.1.isEmpty then none
      else istreamExp sp.1 (digitsToNat ip.1) 1 ip.2

/-- The source's turnout parse (lines 279-285): extract a double from
the string and require the whole string consumed (`buf >> v`, then
`buf.fail()` / `buf.eof()` checks).  `none` when extraction fails or
characters remain. -/
def istreamRatFull (s : String) : Option ℚ :=
  match istreamRatCore s.data with
  | none => none
  | some (q, rest) => if rest.isEmpty then some q else none

/-- `turnout_str.substr(0, turnout_str.length()-2)` from line 279:
drop the last two characters.  `length()` is `size_t`, so on a string of
length `< 2` the count wraps around and `substr` clamps it, returning
the whole string. -/
def substrDropLast2 (s : String) : String :=
  if 2 ≤ s.data.length then ⟨s.data.take (s.data.length - 2)⟩ else s

/-- `int mergeacross = 0; cell->QueryIntAttribute("s:MergeAcross",
&mergeacross);` — the result is ignored, so an absent or unparsable
attribute leaves the initial `0`. -/
def cellMergeAcross (c : SCell) : Int :=
  match c.mergeAcross with
  | none => 0
  | some s => (sscanfInt s).getD 0

/-! ### `readDocumentProperties` (source lines 87-105) -/

/-- `CScytlReader::readDocumentProperties`.  A missing element or
missing child is the checked `return 1` path; a child whose `GetText()`
is NULL flows into `std::string::operator=`, which is undefined
behavior. -/
def readDocumentProperties : Option DPElem → Except Err CDocumentProperties
  | none => .error .fail
  | some dp =>
      match dp.title with
      | none => .error .fail
      | some none => .error .ub
      | some (some t) =>
          match dp.author with
          | none => .error .fail
          | some none => .error .ub
          | some (some a) =>
              match dp.created with
              | none => .error .fail
              | some none => .error .ub
              | some (some c) => .ok ⟨t, a, c⟩

/-! ### `readTableOfContentsWorksheet` (source lines 107-160) -/

/-- One iteration of the TOC row loop (lines 131-156).  `ok none` is a
`continue`; `ok (some e)` pushes an entry.  The source checks, in order:
first cell and its next sibling exist, first cell styled `Page`, both
cells wrap a datum, first datum typed `Number` (a missing type attribute
reaches `strcmp(NULL, "Number")`), second typed `String` (short-circuit:
only checked when the first matched), `QueryIntText` succeeds (a failed
parse or missing text is a `continue`), and finally
`string contest = data2->GetText()` (NULL text is undefined behavior). -/
def tocRow (r : SRow) : Except Err (Option (Int × String)) :=
  match r.cells with
  | c1 :: c2 :: _ =>
      match c1.styleID with
      | none => .ok none
      | some st =>
          if st = "Page" then
            match c1.datum, c2.datum with
            | some d1, some d2 =>
                match d1.typ with
                | none => .error .ub
                | some t1 =>
                    if t1 = "Number" then
                      match d2.typ with
                      | none => .error .ub
                      | some t2 =>
                          if t2 = "String" then
                            match d1.text with
                            | none => .ok none
                            | some s =>
                                match sscanfInt s with
                                | none => .ok none
                                | some page =>
                                    match d2.text with
                                    | none => .error .ub
                                    | some contest => .ok (some (page, contest))
                          else .ok none
                    else .ok none
            | _, _ => .ok none
          else .ok none
  | _ => .ok none

/-- The TOC row loop over all rows, in document order. -/
def tocRows : List SRow → Except Err (List (Int × String))
  | [] => .ok []
  | r :: rs =>
      match tocRow r with
      | .error e => .error e
      | .ok none => tocRows rs
      | .ok (some en) =>
          match tocRows rs with
          | .error e => .error e
          | .ok es => .ok (en :: es)

/-- `CScytlReader::readTableOfContentsWorksheet`.  The orchestrator can
pass a null worksheet pointer (scan ran off the end), in which case
`ws->FirstChildElement` is undefined behavior. -/
def readTableOfContentsWorksheet : Option Worksheet → Except Err (List (Int × String))
  | none => .error .ub
  | some ws =>
      match ws.table with
      | none => .error .fail
      | some t => tocRows t.rows

/-- The entry a row contributes, if any (the `ok` value of `tocRow`,
`none` on the error path). -/
def tocRowHit (r : SRow) : Option (Int × String) :=
  match tocRow r with
  | .ok o => o
  | .error _ => none

/-! ### `readRegisteredVotersWorksheet` (source lines 162-302) -/

/-- The header loop (lines 191-204): every cell of the first row whose
datum is typed `String` contributes its text.  A datum with no type
attribute reaches `strcmp(NULL, "String")`, and a `String` datum with
NULL text flows into `std::string` construction — both undefined
behavior. -/
def rvHeaderCells : List SCell → Except Err (List String)
  | [] => .ok []
  | c :: cs =>
      match c.datum with
      | none => rvHeaderCells cs
      | some d =>
          match d.typ with
          | none => .error .ub
          | some ty =>
              if ty = "String" then
                match d.text with
                | none => .error .ub
                | some s =>
                    match rvHeaderCells cs with
                    | .error e => .error e
                    | .ok hs => .ok (s :: hs)
              else rvHeaderCells cs

/-- An all-unassigned `CRegionProfile` (the freshly declared local of
line 230). -/
def emptyProfile : CRegionProfile := ⟨none, none, none, none⟩

/-- The first-cell step of a data row (lines 235-242): when the first
cell exists and wraps a `String`-typed datum its text becomes the region
name; any other shape is silently skipped — no failure path.  A
`String`-typed datum with NULL text flows into `std::string::operator=`
(undefined behavior).  Returns the profile and the remaining cells. -/
def rvFirstCell : List SCell → Except Err (CRegionProfile × List SCell)
  | [] => .ok (emptyProfile, [])
  | c :: cs =>
      match c.datum with
      | none => .ok (emptyProfile, cs)
      | some d =>
          match d.typ with
          | none => .ok (emptyProfile, cs)
          | some ty =>
              if ty = "String" then
                match d.text with
                | none => .error .ub
                | some s => .ok ({ emptyProfile with regionName := some s }, cs)
              else .ok (emptyProfile, cs)

/-- The per-pair dispatch of the data-row loop (lines 253-291): match
the header name and require the recorded cell style and datum type, then
parse.  `Registered Voters` / `Ballots Cast` use `QueryIntText` (a
missing text node or failed parse is the `return 1` path); for
`Voter Turnout` the text is fetched with `GetText()` (NULL text is
undefined behavior), the last two characters are dropped and the rest
must extract completely as a double.  Any other combination is the
`return 1` path at line 290. -/
def rvDispatch (p : CRegionProfile) (hname : String) (c : SCell) : Except Err CRegionProfile :=
  let sty := c.styleID
  let ty := c.datum.bind SDatum.typ
  let tx := c.datum.bind SDatum.text
  if hname = "Registered Voters" ∧ sty = some "VoteCount" ∧ ty = some "Number" then
    match tx with
    | none => .error .fail
    | some s =>
        match sscanfInt s with
        | none => .error .fail
        | some v => .ok { p with registeredVoters := some v }
  else if hname = "Ballots Cast" ∧ sty = some "VoteCount" ∧ ty = some "Number" then
    match tx with
    | none => .error .fail
    | some s =>
        match sscanfInt s with
        | none => .error .fail
        | some v => .ok { p with ballotsCast := some v }
  else if hname = "Voter Turnout" ∧ sty = some "VoteCount" ∧ ty = some "String" then
    match tx with
    | none => .error .ub
    | some s =>
        match istreamRatFull (substrDropLast2 s) with
        | none => .error .fail
        | some q => .ok { p with voterTurnout := some q }
  else .error .fail

/-- The lock-step walk of remaining cells against remaining header
names (lines 249-296): the loop runs while both are nonempty and the
post-loop check `if (cell || itHeader != header.end()) return 1` rejects
any leftover on either side. -/
def rvLockstep (p : CRegionProfile) : List SCell → List String → Except Err CRegionProfile
  | [], [] => .ok p
  | [], _ :: _ => .error .fail
  | _ :: _, [] => .error .fail
  | c :: cs, h :: hs =>
      match rvDispatch p h c with
      | .error e => .error e
      | .ok p1 => rvLockstep p1 cs hs

/-- The data-row loop (lines 226-299): region name from the first cell,
then lock-step against the header with its first entry skipped, then
append. -/
def rvDataRows (hdr : List String) : List SRow → Except Err (List CRegionProfile)
  | [] => .ok []
  | r :: rs =>
      match rvFirstCell r.cells with
      | .error e => .error e
      | .ok pr =>
          match rvLockstep pr.1 pr.2 (hdr.drop 1) with
          | .error e => .error e
          | .ok p =>
              match rvDataRows hdr rs with
              | .error e => .error e
              | .ok ps => .ok (p :: ps)

/-- `CScytlReader::readRegisteredVotersWorksheet`.  A null worksheet
pointer (scan ran off the end) is dereferenced immediately.  With no
rows the header stays empty and no profiles are produced. -/
def readRegisteredVotersWorksheet : Option Worksheet → Except Err (List CRegionProfile)
  | none => .error .ub
  | some ws =>
      match ws.table with
      | none => .error .fail
      | some t =>
          match t.rows with
          | [] => .ok []
          | r :: rs =>
              match rvHeaderCells r.cells with
              | .error e => .error e
              | .ok hdr => rvDataRows hdr rs

/-! ### `readElectionResultsWorksheet` (source lines 304-513) -/

/-- The inner candidate-row loop (lines 375-381): starting at offset `i`
of the merged span, assign the cell text (when the datum exists and has
text) to consecutive header slots while `i <= mergeacross` and slots
remain.  Returns the processed prefix and the untouched suffix. -/
def candAssign (txt : Option String) (m : Int) : Int → List CElectionHeader →
    (List CElectionHeader × List CElectionHeader)
  | _, [] => ([], [])
  | i, h :: t =>
      if i ≤ m then
        let h1 :=
          match txt with
          | some s => { h with candidateName := s }
          | none => h
        let p := candAssign txt m (i + 1) t
        (h1 :: p.1, p.2)
      else ([], h :: t)

/-- The outer candidate-row loop (lines 364-386): consume real cells
while header slots remain; the post-loop check rejects leftover cells or
leftover slots. -/
def candRow : List SCell → List CElectionHeader → Except Err (List CElectionHeader)
  | [], [] => .ok []
  | [], _ :: _ => .error .fail
  | _ :: _, [] => .error .fail
  | c :: cs, h :: hs =>
      let p := candAssign (c.datum.bind SDatum.text) (cellMergeAcross c) 0 (h :: hs)
      match candRow cs p.2 with
      | .error e => .error e
      | .ok rest => .ok (p.1 ++ rest)

/-- The column-name row loop (lines 419-437): one cell per remaining
slot; each must wrap a `String`-typed datum with text, else `return 1`;
the post-loop check rejects count mismatches. -/
def colRow : List SCell → List CElectionHeader → Except Err (List CElectionHeader)
  | [], [] => .ok []
  | [], _ :: _ => .error .fail
  | _ :: _, [] => .error .fail
  | c :: cs, h :: hs =>
      let ty := c.datum.bind SDatum.typ
      let tx := c.datum.bind SDatum.text
      if ty = some "String" then
        match tx with
        | none => .error .fail
        | some s =>
            match colRow cs hs with
            | .error e => .error e
            | .ok rest => .ok ({ h with columnName := s } :: rest)
      else .error .fail

/-- The vote-count cells of a data row (lines 489-503): each must carry
style `VoteCount` and a `Number`-typed datum whose text parses with
`QueryIntText`, else `return 1`. -/
def voteCells : List SCell → Except Err (List Int)
  | [] => .ok []
  | c :: cs =>
      if c.styleID = some "VoteCount" ∧ c.datum.bind SDatum.typ = some "Number" then
        match c.datum.bind SDatum.text with
        | none => .error .fail
        | some s =>
            match sscanfInt s with
            | none => .error .fail
            | some v =>
                match voteCells cs with
                | .error e => .error e
                | .ok vs => .ok (v :: vs)
      else .error .fail

/-- One data row (lines 474-503): the first cell must wrap a
`String`-typed datum (else `return 1`); its text becomes the label
(`tuple.Label = data->GetText()` with NULL text is undefined behavior);
the remaining cells are vote counts. -/
def readDataRow (r : SRow) : Except Err CLabeledTuple :=
  match r.cells with
  | [] => .error .fail
  | c :: cs =>
      match c.datum with
      | none => .error .fail
      | some d =>
          if d.typ = some "String" then
            match d.text with
            | none => .error .ub
            | some lb =>
                match voteCells cs with
                | .error e => .error e
                | .ok vs => .ok ⟨lb, vs⟩
          else .error .fail

/-- The data-row loop (lines 470-510): read a row, reject it when
`tuple.Data.size() + 1 != election.Header.size()`, else append. -/
def readDataRows (hdr : List CElectionHeader) : List SRow → Except Err (List CLabeledTuple)
  | [] => .ok []
  | r :: rs =>
      match readDataRow r with
      | .error e => .error e
      | .ok t =>
          if t.data.length + 1 ≠ hdr.length then .error .fail
          else
            match readDataRows hdr rs with
            | .error e => .error e
            | .ok ts => .ok (t :: ts)

/-- Stages 2-4 of `readElectionResultsWorksheet` (candidate row,
column-name row, data rows) applied to the rows after the title row,
with the election name and the freshly allocated header.  When a row
pointer is already NULL but the corresponding loop's post-check passes
(only possible with an empty header), the source advances it with
`row->NextSiblingElement()` — undefined behavior. -/
def electionFromRows (nm : String) (hdr0 : List CElectionHeader) :
    List SRow → Except Err CElection
  | [] =>
      (match candRow [] hdr0 with
       | .error e => .error e
       | .ok _ => .error .ub)
  | r1 :: rest2 =>
      match candRow r1.cells hdr0 with
      | .error e => .error e
      | .ok hdr1 =>
          match rest2 with
          | [] =>
              (match colRow [] hdr1 with
               | .error e => .error e
               | .ok _ => .error .ub)
          | r2 :: rest3 =>
              match colRow r2.cells hdr1 with
              | .error e => .error e
              | .ok hdr2 =>
                  match readDataRows hdr2 rest3 with
                  | .error e => .error e
                  | .ok results => .ok ⟨nm, hdr2, results⟩

/-- `CScytlReader::readElectionResultsWorksheet`.  Title row: one cell
styled `headerLbl` wrapping a `String` datum; its text is the election
name (NULL text is undefined behavior) and `MergeAcross + 1` slots are
allocated (`resize` with a negative count converts to a huge `size_t`,
modelled as `ub`); then the remaining stages run on the remaining
rows. -/
def readElectionResultsWorksheet (ws : Worksheet) : Except Err CElection :=
  match ws.table with
  | none => .error .fail
  | some tb =>
      match tb.rows with
      | [] => .error .fail
      | r0 :: rest =>
          match r0.cells.head? with
          | none => .error .fail
          | some c0 =>
              match c0.datum with
              | none => .error .fail
              | some d0 =>
                  if c0.styleID = some "headerLbl" ∧ d0.typ = some "String" then
                    match d0.text with
                    | none => .error .ub
                    | some nm =>
                        match cellMergeAcross c0 + 1 with
                        | Int.negSucc _ => .error .ub
                        | Int.ofNat w => electionFromRows nm (List.replicate w ⟨"", ""⟩) rest
                  else .error .fail

/-! ### `CScytlReader::Read` (source lines 515-633) -/

/-- The worksheet-name scan `while (ws && strcmp(ws->Attribute("s:Name"),
name)) ws = ws->NextSiblingElement();` — strictly forward from the
current cursor.  Returns the found worksheet (or `none` when the scan
runs off the end) plus the remaining siblings; a worksheet with no
`s:Name` attribute reaches `strcmp(NULL, ...)` — undefined behavior. -/
def scanForWS (nm : String) : List Worksheet → Except Err (Option Worksheet × List Worksheet)
  | [] => .ok (none, [])
  | w :: rest =>
      match w.name with
      | none => .error .ub
      | some s => if s = nm then .ok (some w, rest) else scanForWS nm rest

/-- The election loop (lines 557-568): every remaining worksheet
sibling is read as a results sheet and appended. -/
def readElections : List Worksheet → Except Err (List CElection)
  | [] => .ok []
  | w :: ws =>
      match readElectionResultsWorksheet w with
      | .error e => .error e
      | .ok e =>
          match readElections ws with
          | .error e2 => .error e2
          | .ok es => .ok (e :: es)

/-- `CScytlReader::Read` from the located root element onward (file
loading and the final printing are outside the extraction).  Document
properties, then the forward scan for `Table of Contents`, the TOC
sheet, the forward scan for `Registered Voters` resuming from the
current cursor (the TOC sheet itself), the registered-voters sheet, and
every later sibling as an election sheet.  When a scan runs off the end
the source passes the NULL cursor straight into the sheet reader. -/
def scytlRead (wb : Workbook) : Except Err CElectionDataset :=
  match readDocumentProperties wb.docProps with
  | .error e => .error e
  | .ok props =>
      match scanForWS "Table of Contents" wb.worksheets with
      | .error e => .error e
      | .ok (tocWS, rest1) =>
          match readTableOfContentsWorksheet tocWS with
          | .error e => .error e
          | .ok toc =>
              let cont :=
                match tocWS with
                | some w => w :: rest1
                | none => rest1
              match scanForWS "Registered Voters" cont with
              | .error e => .error e
              | .ok (rvWS, rest2) =>
                  match readRegisteredVotersWorksheet rvWS with
                  | .error e => .error e
                  | .ok regions =>
                      match readElections rest2 with
                      | .error e => .error e
                      | .ok elections => .ok ⟨props, toc, regions, elections⟩

/-! ### Concrete fixtures used by the theorems and witnesses below -/

/-- A plain cell wrapping a `String`-typed datum with the given text. -/
def strCell (s : String) : SCell := ⟨none, none, some ⟨some "String", some s⟩⟩

/-- A `VoteCount`-styled cell wrapping a `Number`-typed datum. -/
def vcNum (s : String) : SCell := ⟨some "VoteCount", none, some ⟨some "Number", some s⟩⟩

/-- A `VoteCount`-styled cell wrapping a `String`-typed datum (the shape
of the turnout column). -/
def vcStr (s : String) : SCell := ⟨some "VoteCount", none, some ⟨some "String", some s⟩⟩

/-- A registered-voters worksheet with the standard four-column header
and a single data row whose turnout cell carries the given text. -/
def rvWorksheet (t : String) : Worksheet :=
  ⟨some "Registered Voters",
   some ⟨[⟨[strCell "County", strCell "Registered Voters", strCell "Ballots Cast",
            strCell "Voter Turnout"]⟩,
          ⟨[strCell "Arkansas", vcNum "9095", vcNum "1898", vcStr t]⟩]⟩⟩

/-- The profile the `rvWorksheet` data row produces when the turnout
text parses to `q`. -/
def arkansasProfile (q : ℚ) : CRegionProfile := ⟨some "Arkansas", some 9095, some 1898, some q⟩

/-- A registered-voters worksheet whose header has only the region-name
column and whose single data row has only a region-name cell. -/
def wsHeaderOnlyCounty : Worksheet :=
  ⟨some "Registered Voters", some ⟨[⟨[strCell "County"]⟩, ⟨[strCell "Arkansas"]⟩]⟩⟩

/-- Registered-voters worksheet with header `[County, Registered
Voters]` and one data row whose first cell is `c` followed by one vote
cell. -/
def wsC6fam (c : SCell) : Worksheet :=
  ⟨some "Registered Voters",
   some ⟨[⟨[strCell "County", strCell "Registered Voters"]⟩, ⟨[c, vcNum "5"]⟩]⟩⟩

/-- A first cell carrying a `Number`-typed datum (not a `String`). -/
def cellNumberDatum : SCell := ⟨none, none, some ⟨some "Number", some "7"⟩⟩

/-- A first cell carrying no datum at all. -/
def cellNoDatum : SCell := ⟨none, none, none⟩

/-- A results worksheet whose title row allocates two header slots
(`MergeAcross="1"`) and whose candidate row is a single text cell whose
`MergeAcross` attribute is the given string. -/
def wsCandMerge (s : String) : Worksheet :=
  ⟨some "E1",
   some ⟨[⟨[⟨some "headerLbl", some "1", some ⟨some "String", some "Race"⟩⟩]⟩,
          ⟨[⟨none, some s, some ⟨some "String", some "John"⟩⟩]⟩,
          ⟨[strCell "A", strCell "B"]⟩]⟩⟩

/-- The election `wsCandMerge` yields whenever the candidate cell's
merge span covers (or overshoots) both slots. -/
def electionTwoJohn : CElection := ⟨"Race", [⟨"A", "John"⟩, ⟨"B", "John"⟩], []⟩

/-- A results worksheet whose title cell has no `MergeAcross` attribute
and whose candidate row is one textless `String` datum cell. -/
def wsTitleNoMerge : Worksheet :=
  ⟨some "E2",
   some ⟨[⟨[⟨some "headerLbl", none, some ⟨some "String", some "Prop 1"⟩⟩]⟩,
          ⟨[⟨none, none, some ⟨some "String", none⟩⟩]⟩,
          ⟨[strCell "County"]⟩]⟩⟩

/-- A complete two-column results worksheet with one data row. -/
def wsElectionOK : Worksheet :=
  ⟨some "E3",
   some ⟨[⟨[⟨some "headerLbl", some "1", some ⟨some "String", some "Race"⟩⟩]⟩,
          ⟨[⟨none, some "1", some ⟨some "String", some "Jane"⟩⟩]⟩,
          ⟨[strCell "County", strCell "Total"]⟩,
          ⟨[strCell "Arkansas", vcNum "12"]⟩]⟩⟩

/-- The election `wsElectionOK` yields. -/
def electionOK : CElection :=
  ⟨"Race", [⟨"County", "Jane"⟩, ⟨"Total", "Jane"⟩], [⟨"Arkansas", [12]⟩]⟩

/-- A TOC row with three cells: `Page`-styled `Number` cell, a `String`
cell, and one extra `String` cell. -/
def rowPageThreeCells : SRow :=
  ⟨[⟨some "Page", none, some ⟨some "Number", some "1"⟩⟩, strCell "A", strCell "junk"]⟩

/-- A TOC worksheet whose only row is `rowPageThreeCells`. -/
def wsTocThreeCells : Worksheet := ⟨some "Table of Contents", some ⟨[rowPageThreeCells]⟩⟩

/-- A TOC table mixing a decoration row, a plain two-cell entry, a
three-cell entry and a styleless row. -/
def tocMixedTable : STable :=
  ⟨[⟨[]⟩,
    ⟨[⟨some "Page", none, some ⟨some "Number", some "1"⟩⟩, strCell "A"]⟩,
    ⟨[⟨some "Page", none, some ⟨some "Number", some "2"⟩⟩, strCell "B", strCell "x"]⟩,
    ⟨[⟨none, none, some ⟨some "Number", some "3"⟩⟩, strCell "C"]⟩]⟩

/-- A TOC worksheet holding `tocMixedTable`. -/
def wsTocMixed : Worksheet := ⟨some "Table of Contents", some tocMixedTable⟩

/-- A fully-populated metadata element. -/
def dpOK : DPElem := ⟨some (some "T"), some (some "A"), some (some "C")⟩

/-- A metadata element whose `o:Title` child exists but has no text. -/
def dpEmptyTitle : DPElem := ⟨some none, some (some "A"), some (some "C")⟩

/-- A minimal TOC worksheet (present table, no rows). -/
def wsTocEmpty : Worksheet := ⟨some "Table of Contents", some ⟨[]⟩⟩

/-- A minimal worksheet named `Registered Voters` (present table, no
rows). -/
def wsRvEmpty : Worksheet := ⟨some "Registered Voters", some ⟨[]⟩⟩

/-- A workbook whose `Registered Voters` sheet comes before the `Table
of Contents` sheet, so the second forward scan runs off the end. -/
def wbRvBeforeToc : Workbook := ⟨some dpOK, [wsRvEmpty, wsTocEmpty]⟩

/-- A well-formed workbook: TOC sheet, registered-voters sheet, one
election sheet. -/
def wbOK : Workbook := ⟨some dpOK, [wsTocEmpty, rvWorksheet "20.87 %", wsElectionOK]⟩

/-- The shape the claim requires of a TOC row, following the claim's
words (for comparison with the behavior of `tocRow`): exactly two data
cells, the first styled `Page` and wrapping a `Number`-typed datum whose
text parses as an integer, the second wrapping a `String`-typed
datum. -/
def specTocCandidate (r : SRow) : Bool :=
  match r.cells with
  | [c1, c2] =>
      (c1.styleID == some "Page") &&
      (match c1.datum, c2.datum with
       | some d1, some d2 =>
           (d1.typ == some "Number") && (d2.typ == some "String") &&
           (match d1.text with
            | some s => (sscanfInt s).isSome
            | none => false)
       | _, _ => false)
  | _ => false

/-! ### C7 -/

/-- C7: the worksheet-name scan is strictly forward and resumes from the
current cursor, so with the sheets ordered `[Registered Voters, Table of
Contents]` the second scan runs off the end — but the source then passes
the NULL cursor into `readRegisteredVotersWorksheet`, which dereferences
it (`ws->FirstChildElement`): a crash, not the clean `MissingNode`
failure the claim states.  This theorem evaluates the model at that
failing input. -/
theorem scan_runoff_is_null_deref : scytlRead wbRvBeforeToc = .error Err.ub := rfl

/-! ### C8 -/

/-- C8: `readDocumentProperties` fails cleanly when the element or a
required child is absent, but when a child exists with no text content
the source assigns `GetText()` — NULL — to a `std::string`: undefined
behavior, not the clean `MissingNode` failure the claim states.  This
theorem evaluates the model at a metadata element whose `o:Title` is
empty. -/
theorem docprops_empty_title_is_null_deref :
    readDocumentProperties (some dpEmptyTitle) = .error Err.ub := rfl

/-! ### C9 -/

/-- C9: extraction is deterministic — the reader is a pure function of
the parsed tree, so equal trees give identical extraction outcomes. -/
theorem extraction_deterministic (wb1 wb2 : Workbook) (h : wb1 = wb2) :
    scytlRead wb1 = scytlRead wb2 := by rw [h]

/-- Witness for C9 at a concrete well-formed workbook. -/
theorem extraction_deterministic_witness : scytlRead wbOK = scytlRead wbOK :=
  extraction_deterministic wbOK wbOK rfl

/-! ### C10 -/

/-- C10: an absent or unparsable `s:MergeAcross` attribute is treated as
merge-across 0 (`QueryIntAttribute` leaves the initialized 0 untouched),
and a title cell with no merge-across attribute yields an election with
exactly one header slot. -/
theorem mergeacross_defaults_to_zero (c : SCell)
    (h : ∀ s, c.mergeAcross = some s → sscanfInt s = none) :
    cellMergeAcross c = 0 ∧
      readElectionResultsWorksheet wsTitleNoMerge = .ok ⟨"Prop 1", [⟨"County", ""⟩], []⟩ := by
  refine ⟨?_, rfl⟩
  unfold cellMergeAcross
  cases hm : c.mergeAcross with
  | none => rfl
  | some s =>
      show (sscanfInt s).getD 0 = 0
      rw [h s hm]
      rfl

/-- Witness for C10 at a cell whose merge-across attribute is the
non-numeric string `abc`. -/
theorem mergeacross_defaults_to_zero_witness :
    cellMergeAcross ⟨none, some "abc", none⟩ = 0 ∧
      readElectionResultsWorksheet wsTitleNoMerge = .ok ⟨"Prop 1", [⟨"County", ""⟩], []⟩ :=
  mergeacross_defaults_to_zero ⟨none, some "abc", none⟩
    (fun s hs => by injection hs with h2; subst h2; decide)

/-! ### C1 -/

/-- C1 counterexample: the claim states the turnout text must end in
`" %"` and that `"20.87%x"` fails with `ParseFailure`; in the source the
last two characters are stripped unconditionally, so on `"20.87%x"` the
remainder `"20.87"` parses and extraction succeeds with 20.87. -/
theorem turnout_no_suffix_check_cx :
    readRegisteredVotersWorksheet (some (rvWorksheet "20.87%x")) =
      .ok [arkansasProfile (mkRat 2087 100)] := rfl

/-- C1 as amended: for a `Voter Turnout` cell the source drops the last
two characters of the text, whatever they are, and requires the
remainder to extract completely as a decimal number (any leftover
character fails); the whole extraction fails exactly when that parse
fails. -/
theorem turnout_strips_two_chars_unconditionally (t : String) :
    readRegisteredVotersWorksheet (some (rvWorksheet t)) =
      (match istreamRatFull (substrDropLast2 t) with
       | some q => .ok [arkansasProfile q]
       | none => .error Err.fail) := by
  cases hq : istreamRatFull (substrDropLast2 t) with
  | none =>
      simp +decide [readRegisteredVotersWorksheet, rvWorksheet, rvHeaderCells, strCell,
        vcNum, vcStr, rvDataRows, rvFirstCell, rvLockstep, rvDispatch, emptyProfile, hq]
  | some q =>
      simp +decide [readRegisteredVotersWorksheet, rvWorksheet, rvHeaderCells, strCell,
        vcNum, vcStr, rvDataRows, rvFirstCell, rvLockstep, rvDispatch, emptyProfile,
        arkansasProfile, hq, show sscanfInt "9095" = some 9095 from rfl,
        show sscanfInt "1898" = some 1898 from rfl]

/-! ### C6 -/

/-- C6 counterexample: the claim states a non-`String` first cell makes
extraction fail with `TypeMismatch`; in the source the row succeeds with
the region name simply left unset. -/
theorem region_name_not_string_cx :
    readRegisteredVotersWorksheet (some (wsC6fam cellNumberDatum)) =
      .ok [⟨none, some 5, none, none⟩] := rfl

/-- C6 as amended: the first cell's text becomes the region name only
when the cell wraps a `String`-typed datum; any other first cell (no
datum, no type attribute, or a non-`String` type) does not fail — the
region name is left unset and the row is still processed and
appended. -/
theorem region_name_skipped_when_not_string (c : SCell)
    (h : ∀ d, c.datum = some d → d.typ ≠ some "String") :
    readRegisteredVotersWorksheet (some (wsC6fam c)) =
      .ok [⟨none, some 5, none, none⟩] := by
  cases hd : c.datum with
  | none =>
      simp +decide [readRegisteredVotersWorksheet, wsC6fam, rvHeaderCells, strCell, vcNum,
        rvDataRows, rvFirstCell, rvLockstep, rvDispatch, emptyProfile, hd]
  | some d =>
      cases ht : d.typ with
      | none =>
          simp +decide [readRegisteredVotersWorksheet, wsC6fam, rvHeaderCells, strCell,
            vcNum, rvDataRows, rvFirstCell, rvLockstep, rvDispatch, emptyProfile, hd, ht]
      | some ty =>
          have hne : ty ≠ "String" := fun he => h d hd (by rw [ht, he])
          simp +decide [readRegisteredVotersWorksheet, wsC6fam, rvHeaderCells, strCell,
            vcNum, rvDataRows, rvFirstCell, rvLockstep, rvDispatch, emptyProfile, hd, ht,
            hne]

/-- Witness for C6 at a first cell wrapping no datum at all. -/
theorem region_name_skipped_when_not_string_witness :
    readRegisteredVotersWorksheet (some (wsC6fam cellNoDatum)) =
      .ok [⟨none, some 5, none, none⟩] :=
  region_name_skipped_when_not_string cellNoDatum (fun d hd => by cases hd)

/-! ### C4 -/

/-- C4 counterexample: the claim states a candidate cell with
merge-across `M` fills exactly `M + 1` slots and extraction fails when
the cursor does not land exactly on the allocated width; in the source
the span is clamped at the width, so with width 2 a single candidate
cell with merge-across 9 fills just the 2 remaining slots and extraction
succeeds. -/
theorem candidate_merge_overshoot_cx :
    readElectionResultsWorksheet (wsCandMerge "9") = .ok electionTwoJohn := rfl

/-- C4 as amended: a candidate cell's text is assigned to
`min (M + 1, remaining)` consecutive slots and the cursor advances by
that amount — the span is clamped at the allocated width.  Extraction
fails exactly when cells and width are not exhausted together: over a
width of 2, a single text cell succeeds (filling both slots) for every
`M ≥ 1` however large, and fails when `M = 0` (cursor lands short) or
`M < 0` (no slot consumed). -/
theorem candidate_merge_clamped (s : String) (M : Int) (h : sscanfInt s = some M) :
    (1 ≤ M → readElectionResultsWorksheet (wsCandMerge s) = .ok electionTwoJohn) ∧
    (M = 0 → readElectionResultsWorksheet (wsCandMerge s) = .error Err.fail) ∧
    (M < 0 → readElectionResultsWorksheet (wsCandMerge s) = .error Err.fail) := by
  refine ⟨fun hM => ?_, fun hM => ?_, fun hM => ?_⟩
  · have h0 : (0 : Int) ≤ M := by omega
    simp +decide [readElectionResultsWorksheet, electionFromRows, wsCandMerge, strCell,
      cellMergeAcross, h, candRow, candAssign, colRow, readDataRows, electionTwoJohn, h0, hM,
      show sscanfInt "1" = some 1 from rfl]
  · subst hM
    simp +decide [readElectionResultsWorksheet, electionFromRows, wsCandMerge, strCell,
      cellMergeAcross, h, candRow, candAssign, colRow, readDataRows,
      show sscanfInt "1" = some 1 from rfl]
  · have h0 : ¬ (0 : Int) ≤ M := by omega
    simp +decide [readElectionResultsWorksheet, electionFromRows, wsCandMerge, strCell,
      cellMergeAcross, h, candRow, candAssign, colRow, readDataRows, h0,
      show sscanfInt "1" = some 1 from rfl]

/-- Witness for C4 at merge-across 5 over a width of 2. -/
theorem candidate_merge_clamped_witness :
    readElectionResultsWorksheet (wsCandMerge "5") = .ok electionTwoJohn :=
  (candidate_merge_clamped "5" 5 (by decide)).1 (by decide)

/-! ### C3 -/

/-- Every tuple accepted by the data-row loop has the checked width. -/
lemma readDataRows_width (hdr : List CElectionHeader) :
    ∀ (rows : List SRow) (ts : List CLabeledTuple), readDataRows hdr rows = .ok ts →
      ∀ t ∈ ts, t.data.length + 1 = hdr.length := by
  intro rows
  induction rows with
  | nil =>
      intro ts h t ht
      simp only [readDataRows] at h
      cases h
      simp at ht
  | cons r rs ih =>
      intro ts h t ht
      simp only [readDataRows] at h
      cases hr : readDataRow r with
      | error e => simp only [hr] at h; cases h
      | ok t1 =>
          simp only [hr] at h
          by_cases hw : t1.data.length + 1 ≠ hdr.length
          · rw [if_pos hw] at h; cases h
          · rw [if_neg hw] at h
            cases hrs : readDataRows hdr rs with
            | error e => simp only [hrs] at h; cases h
            | ok ts1 =>
                simp only [hrs] at h
                cases h
                rcases List.mem_cons.mp ht with h1 | h1
                · subst h1; omega
                · exact ih ts1 hrs t h1

/-- Every tuple of an election assembled by `electionFromRows` has the
checked width (the data rows are checked against the very header list
stored in the result). -/
lemma electionFromRows_width (nm : String) (hdr0 : List CElectionHeader)
    (rest : List SRow) (e : CElection) (h : electionFromRows nm hdr0 rest = .ok e) :
    ∀ t ∈ e.results, t.data.length + 1 = e.header.length := by
  cases rest with
  | nil =>
      simp only [electionFromRows] at h
      cases hc : candRow [] hdr0 <;> simp only [hc] at h <;> cases h
  | cons r1 rest2 =>
      simp only [electionFromRows] at h
      cases hc : candRow r1.cells hdr0 with
      | error e1 => simp only [hc] at h; cases h
      | ok hdr1 =>
          simp only [hc] at h
          cases rest2 with
          | nil =>
              cases hcol : colRow [] hdr1 <;> simp only [hcol] at h <;> cases h
          | cons r2 rest3 =>
              cases hcol : colRow r2.cells hdr1 with
              | error e2 => simp only [hcol] at h; cases h
              | ok hdr2 =>
                  simp only [hcol] at h
                  cases hd : readDataRows hdr2 rest3 with
                  | error e3 => simp only [hd] at h; cases h
                  | ok results =>
                      simp only [hd] at h
                      cases h
                      exact fun t ht => readDataRows_width hdr2 rest3 results hd t ht

/-- C3: every `LabeledTuple` of an election produced by
`readElectionResultsWorksheet` satisfies `data.length + 1 =
header.length`; a data row violating this makes the whole extraction
fail (the `return 1` path at line 507). -/
theorem tuple_width_invariant (ws : Worksheet) (e : CElection)
    (h : readElectionResultsWorksheet ws = .ok e) :
    ∀ t ∈ e.results, t.data.length + 1 = e.header.length := by
  unfold readElectionResultsWorksheet at h
  repeat' split at h
  all_goals try cases h
  all_goals exact electionFromRows_width _ _ _ _ h

/-- Witness for C3 at a concrete two-column results sheet and its one
tuple. -/
theorem tuple_width_invariant_witness :
    (⟨"Arkansas", [12]⟩ : CLabeledTuple).data.length + 1 = electionOK.header.length :=
  tuple_width_invariant wsElectionOK electionOK (by rfl) ⟨"Arkansas", [12]⟩ (by decide)

/-! ### C2 -/

/-- C2 counterexample: with a header containing only the region-name
column, a one-cell data row is accepted and appended with the three
numeric fields never assigned — a partial record, where the claim states
all four fields are populated or the row is rejected as a whole. -/
theorem region_profile_partial_cx :
    readRegisteredVotersWorksheet (some wsHeaderOnlyCounty) =
      .ok [⟨some "Arkansas", none, none, none⟩] := rfl

/-- A successful dispatch never unassigns a field, and assigns the field
selected by the header name. -/
lemma rvDispatch_fields (p : CRegionProfile) (hname : String) (c : SCell)
    (p1 : CRegionProfile) (h : rvDispatch p hname c = .ok p1) :
    (p.registeredVoters.isSome → p1.registeredVoters.isSome) ∧
    (p.ballotsCast.isSome → p1.ballotsCast.isSome) ∧
    (p.voterTurnout.isSome → p1.voterTurnout.isSome) ∧
    (hname = "Registered Voters" → p1.registeredVoters.isSome) ∧
    (hname = "Ballots Cast" → p1.ballotsCast.isSome) ∧
    (hname = "Voter Turnout" → p1.voterTurnout.isSome) := by
  unfold rvDispatch at h
  by_cases h1 : hname = "Registered Voters" ∧ c.styleID = some "VoteCount" ∧
      c.datum.bind SDatum.typ = some "Number"
  · rw [if_pos h1] at h
    cases htx : c.datum.bind SDatum.text with
    | none => simp only [htx] at h; cases h
    | some s =>
        simp only [htx] at h
        cases hsc : sscanfInt s with
        | none => simp only [hsc] at h; cases h
        | some v =>
            simp only [hsc] at h
            cases h
            obtain ⟨e1, -⟩ := h1
            subst e1
            simp +decide
  · rw [if_neg h1] at h
    by_cases h2 : hname = "Ballots Cast" ∧ c.styleID = some "VoteCount" ∧
        c.datum.bind SDatum.typ = some "Number"
    · rw [if_pos h2] at h
      cases htx : c.datum.bind SDatum.text with
      | none => simp only [htx] at h; cases h
      | some s =>
          simp only [htx] at h
          cases hsc : sscanfInt s with
          | none => simp only [hsc] at h; cases h
          | some v =>
              simp only [hsc] at h
              cases h
              obtain ⟨e1, -⟩ := h2
              subst e1
              simp +decide
    · rw [if_neg h2] at h
      by_cases h3 : hname = "Voter Turnout" ∧ c.styleID = some "VoteCount" ∧
          c.datum.bind SDatum.typ = some "String"
      · rw [if_pos h3] at h
        cases htx : c.datum.bind SDatum.text with
        | none => simp only [htx] at h; cases h
        | some s =>
            simp only [htx] at h
            cases hsc : istreamRatFull (substrDropLast2 s) with
            | none => simp only [hsc] at h; cases h
            | some q =>
                simp only [hsc] at h
                cases h
                obtain ⟨e1, -⟩ := h3
                subst e1
                simp +decide
      · rw [if_neg h3] at h
        cases h

/-- A successful lock-step walk leaves every already-assigned field
assigned and assigns the field of every header name it consumed. -/
lemma rvLockstep_fields :
    ∀ (cells : List SCell) (hdrs : List String) (p p1 : CRegionProfile),
      rvLockstep p cells hdrs = .ok p1 →
      ((p.registeredVoters.isSome → p1.registeredVoters.isSome) ∧
       (p.ballotsCast.isSome → p1.ballotsCast.isSome) ∧
       (p.voterTurnout.isSome → p1.voterTurnout.isSome)) ∧
      (∀ hn ∈ hdrs,
        (hn = "Registered Voters" → p1.registeredVoters.isSome) ∧
        (hn = "Ballots Cast" → p1.ballotsCast.isSome) ∧
        (hn = "Voter Turnout" → p1.voterTurnout.isSome)) := by
  intro cells
  induction cells with
  | nil =>
      intro hdrs p p1 h
      cases hdrs with
      | nil =>
          simp only [rvLockstep] at h
          cases h
          exact ⟨⟨id, id, id⟩, by simp⟩
      | cons hd hs => simp only [rvLockstep] at h; cases h
  | cons c cs ih =>
      intro hdrs p p1 h
      cases hdrs with
      | nil => simp only [rvLockstep] at h; cases h
      | cons hd hs =>
          simp only [rvLockstep] at h
          cases hdisp : rvDispatch p hd c with
          | error e => simp only [hdisp] at h; cases h
          | ok p2 =>
              simp only [hdisp] at h
              obtain ⟨dm1, dm2, dm3, dn1, dn2, dn3⟩ := rvDispatch_fields p hd c p2 hdisp
              obtain ⟨⟨m1, m2, m3⟩, names⟩ := ih hs p2 p1 h
              refine ⟨⟨fun hp => m1 (dm1 hp), fun hp => m2 (dm2 hp), fun hp => m3 (dm3 hp)⟩, ?_⟩
              intro hn hmem
              rcases List.mem_cons.mp hmem with h1 | h1
              · subst h1
                exact ⟨fun he => m1 (dn1 he), fun he => m2 (dn2 he), fun he => m3 (dn3 he)⟩
              · exact names hn h1

/-- Every profile accepted by the data-row loop has the fields named in
the header's tail assigned. -/
lemma rvDataRows_fields (hdr : List String) :
    ∀ (rows : List SRow) (ps : List CRegionProfile), rvDataRows hdr rows = .ok ps →
      ∀ p ∈ ps,
        ("Registered Voters" ∈ hdr.drop 1 → p.registeredVoters.isSome) ∧
        ("Ballots Cast" ∈ hdr.drop 1 → p.ballotsCast.isSome) ∧
        ("Voter Turnout" ∈ hdr.drop 1 → p.voterTurnout.isSome) := by
  intro rows
  induction rows with
  | nil =>
      intro ps h p hp
      simp only [rvDataRows] at h
      cases h
      simp at hp
  | cons r rs ih =>
      intro ps h p hp
      simp only [rvDataRows] at h
      cases hfc : rvFirstCell r.cells with
      | error e => simp only [hfc] at h; cases h
      | ok pr =>
          simp only [hfc] at h
          cases hls : rvLockstep pr.1 pr.2 (hdr.drop 1) with
          | error e => simp only [hls] at h; cases h
          | ok p0 =>
              simp only [hls] at h
              cases hrs : rvDataRows hdr rs with
              | error e => simp only [hrs] at h; cases h
              | ok ps1 =>
                  simp only [hrs] at h
                  cases h
                  rcases List.mem_cons.mp hp with h1 | h1
                  · subst h1
                    obtain ⟨-, names⟩ := rvLockstep_fields pr.2 (hdr.drop 1) pr.1 _ hls
                    exact ⟨fun hm => (names _ hm).1 rfl, fun hm => (names _ hm).2.1 rfl,
                      fun hm => (names _ hm).2.2 rfl⟩
                  · exact ih ps1 hrs p h1

/-- C2 as amended: every appended `RegionProfile` has assigned exactly
the fields the header tail selects — with the standard header all three
numeric fields (and, per the region-name rule, the name) are populated,
and a row mismatching the header in cell count is rejected whole; but a
header lacking columns yields accepted partial records. -/
theorem region_profile_fields_follow_header (ws : Worksheet) (t : STable) (r : SRow)
    (rs : List SRow) (hdr : List String) (ps : List CRegionProfile)
    (h1 : ws.table = some t) (h2 : t.rows = r :: rs)
    (h3 : rvHeaderCells r.cells = .ok hdr)
    (h4 : readRegisteredVotersWorksheet (some ws) = .ok ps) :
    ∀ p ∈ ps,
      ("Registered Voters" ∈ hdr.drop 1 → p.registeredVoters.isSome) ∧
      ("Ballots Cast" ∈ hdr.drop 1 → p.ballotsCast.isSome) ∧
      ("Voter Turnout" ∈ hdr.drop 1 → p.voterTurnout.isSome) := by
  simp only [readRegisteredVotersWorksheet, h1, h2, h3] at h4
  exact rvDataRows_fields hdr rs ps h4

/-- Witness for C2 at the standard four-column worksheet. -/
theorem region_profile_fields_follow_header_witness :
    (arkansasProfile (mkRat 2087 100)).registeredVoters.isSome ∧
    (arkansasProfile (mkRat 2087 100)).ballotsCast.isSome ∧
    (arkansasProfile (mkRat 2087 100)).voterTurnout.isSome := by
  have happ := region_profile_fields_follow_header (rvWorksheet "20.87 %")
    ⟨[⟨[strCell "County", strCell "Registered Voters", strCell "Ballots Cast",
        strCell "Voter Turnout"]⟩,
      ⟨[strCell "Arkansas", vcNum "9095", vcNum "1898", vcStr "20.87 %"]⟩]⟩
    ⟨[strCell "County", strCell "Registered Voters", strCell "Ballots Cast",
      strCell "Voter Turnout"]⟩
    [⟨[strCell "Arkansas", vcNum "9095", vcNum "1898", vcStr "20.87 %"]⟩]
    ["County", "Registered Voters", "Ballots Cast", "Voter Turnout"]
    [arkansasProfile (mkRat 2087 100)] rfl rfl rfl rfl
    (arkansasProfile (mkRat 2087 100)) (by simp)
  exact ⟨happ.1 (by decide), happ.2.1 (by decide), happ.2.2 (by decide)⟩

/-! ### C5 -/

/-- The TOC row step only errors on the undefined-behavior corners
(missing type attribute reached by `strcmp`, NULL contest text), never
with the clean error code. -/
lemma tocRow_error_ub (r : SRow) (e : Err) (h : tocRow r = .error e) : e = Err.ub := by
  unfold tocRow at h
  repeat' split at h
  all_goals cases h
  all_goals rfl

/-- The TOC row loop only errors on the undefined-behavior corners. -/
lemma tocRows_error_ub : ∀ (rows : List SRow) (e : Err),
    tocRows rows = .error e → e = Err.ub := by
  intro rows
  induction rows with
  | nil => intro e h; simp only [tocRows] at h; cases h
  | cons r rs ih =>
      intro e h
      simp only [tocRows] at h
      cases htr : tocRow r with
      | error e1 => simp only [htr] at h; cases h; exact tocRow_error_ub r _ htr
      | ok o =>
          simp only [htr] at h
          cases o with
          | none => exact ih e h
          | some en =>
              cases hrs : tocRows rs with
              | error e2 => simp only [hrs] at h; cases h; exact ih _ hrs
              | ok es => simp only [hrs] at h; cases h

/-- A successful TOC row loop returns exactly the hits of the per-row
matcher, in row order. -/
lemma tocRows_ok_filterMap : ∀ (rows : List SRow) (es : List (Int × String)),
    tocRows rows = .ok es → es = rows.filterMap tocRowHit := by
  intro rows
  induction rows with
  | nil => intro es h; simp only [tocRows] at h; cases h; simp
  | cons r rs ih =>
      intro es h
      simp only [tocRows] at h
      cases htr : tocRow r with
      | error e1 => simp only [htr] at h; cases h
      | ok o =>
          simp only [htr] at h
          cases o with
          | none =>
              have hhit : tocRowHit r = none := by simp only [tocRowHit, htr]
              simp [List.filterMap_cons, hhit, ih es h]
          | some en =>
              cases hrs : tocRows rs with
              | error e2 => simp only [hrs] at h; cases h
              | ok es1 =>
                  simp only [hrs] at h
                  cases h
                  have hhit : tocRowHit r = some en := by simp only [tocRowHit, htr]
                  simp [List.filterMap_cons, hhit, ih es1 hrs]

/-- C5 as amended: the extractor produces one entry, in row order,
exactly for each row matched by the per-row step — which checks only the
first two cells (a row with extra cells still matches; the claim's
"exactly two data cells" fails) — and it never returns the clean error
code except for a missing table (the null-attribute and null-text
corners of a `Page` row are crashes, not error returns). -/
theorem toc_entries_follow_matching_rows (ws : Worksheet) (t : STable)
    (h1 : ws.table = some t) :
    (∀ es, readTableOfContentsWorksheet (some ws) = .ok es →
       es = t.rows.filterMap tocRowHit) ∧
    readTableOfContentsWorksheet (some ws) ≠ .error Err.fail := by
  constructor
  · intro es h
    simp only [readTableOfContentsWorksheet, h1] at h
    exact tocRows_ok_filterMap t.rows es h
  · intro h
    simp only [readTableOfContentsWorksheet, h1] at h
    exact absurd (tocRows_error_ub t.rows Err.fail h) (by decide)

/-- C5 counterexample: a three-cell row whose first two cells match the
pattern does not satisfy the claim's shape (exactly two data cells), yet
the extractor produces an entry from it instead of skipping it. -/
theorem toc_extra_cells_cx :
    readTableOfContentsWorksheet (some wsTocThreeCells) = .ok [(1, "A")] ∧
    specTocCandidate rowPageThreeCells = false := ⟨rfl, rfl⟩

/-- Witness for C5 at a mixed table: the produced entries are exactly
the per-row hits in row order. -/
theorem toc_entries_follow_matching_rows_witness :
    ([((1 : Int), "A"), ((2 : Int), "B")] : List (Int × String)) =
      tocMixedTable.rows.filterMap tocRowHit :=
  (toc_entries_follow_matching_rows wsTocMixed tocMixedTable rfl).1
    [((1 : Int), "A"), ((2 : Int), "B")] (by rfl)

end Scytl
